import Mathlib

/-!
Verification development for the stock-app backend's market-data core:
a shallow embedding of the cache-aside quote/history read path and the
incremental history synchronizer (`app/services/stock_service.py`), the
JSON sanitizer and symbol resolver (`app/utils/yfinance_helper.py`), and
the WebSocket subscription fan-out engine
(`app/services/websocket_service.py`).
-/

/-- Python float values as they matter to this code base: finite values
(modelled as rationals), `nan`, `inf` and `-inf`. -/
inductive PyFloat where
  | finite (q : ℚ)
  | nan
  | inf
  | ninf
deriving DecidableEq

mutual
/-- A JSON-ish Python value: the universe of values that flow through the
service layer into the cache and the responses.  `vDatetime iso` stands for
a `datetime`/`pd.Timestamp` object carrying its `isoformat()` rendering
(`pd.Series`/`pd.DataFrame` inputs, which `sanitize_for_json` reduces to
dicts, are represented by the dicts they reduce to). -/
inductive PyVal where
  | vNull
  | vBool (b : Bool)
  | vInt (n : Int)
  | vFloat (f : PyFloat)
  | vStr (s : String)
  | vDatetime (iso : String)
  | vList (xs : PyList)
  | vDict (kvs : PyDict)
/-- A Python list of `PyVal`s. -/
inductive PyList where
  | nil
  | cons (hd : PyVal) (tl : PyList)
/-- A Python dict with string keys (the keys this code base produces). -/
inductive PyDict where
  | nil
  | cons (k : String) (v : PyVal) (tl : PyDict)
end

/-- Build a `PyList` from a Lean list. -/
def pyListOf : List PyVal → PyList
  | [] => .nil
  | v :: vs => .cons v (pyListOf vs)

/-- Build a `PyDict` from a Lean association list. -/
def pyDictOf : List (String × PyVal) → PyDict
  | [] => .nil
  | (k, v) :: kvs => .cons k v (pyDictOf kvs)

/-- `dict.get` style lookup on an embedded Python dict. -/
def pyDictGet : PyDict → String → Option PyVal
  | .nil, _ => none
  | .cons k v tl, key => if k = key then some v else pyDictGet tl key

/-- Lookup a key on a `PyVal` that is expected to be a dict. -/
def pyGet (v : PyVal) (key : String) : Option PyVal :=
  match v with
  | .vDict kvs => pyDictGet kvs key
  | _ => none

/-- Two-level dict lookup. -/
def pyGet2 (v : PyVal) (k1 k2 : String) : Option PyVal :=
  match pyGet v k1 with
  | some inner => pyGet inner k2
  | none => none

mutual
/-- `sanitize_for_json` from `app/utils/yfinance_helper.py`: recursively
replaces NaN/Infinity floats by `None`, converts `datetime`/`Timestamp`
objects to their ISO-8601 strings, and rebuilds dicts and lists.  The
`isinstance(data, (int, ...))` branch catches Python `bool`s (a subclass of
`int`), so booleans come out as `0`/`1`, and `None` falls through to the
`pd.isna` branch and stays `None`. -/
def sanitize_for_json : PyVal → PyVal
  | .vDict kvs => .vDict (sanitizeDict kvs)
  | .vList xs => .vList (sanitizeList xs)
  | .vFloat (.finite q) => .vFloat (.finite q)
  | .vFloat _ => .vNull
  | .vInt n => .vInt n
  | .vBool b => .vInt (if b then 1 else 0)
  | .vDatetime iso => .vStr iso
  | .vNull => .vNull
  | .vStr s => .vStr s
/-- Elementwise sanitization of an embedded Python list. -/
def sanitizeList : PyList → PyList
  | .nil => .nil
  | .cons v tl => .cons (sanitize_for_json v) (sanitizeList tl)
/-- Valuewise sanitization of an embedded Python dict. -/
def sanitizeDict : PyDict → PyDict
  | .nil => .nil
  | .cons k v tl => .cons k (sanitize_for_json v) (sanitizeDict tl)
end

mutual
/-- A value is JSON-safe when it holds no non-finite float and no
`datetime`/`Timestamp` object, at any depth. -/
def isJsonSafe : PyVal → Bool
  | .vFloat (.finite _) => true
  | .vFloat _ => false
  | .vDatetime _ => false
  | .vList xs => isJsonSafeList xs
  | .vDict kvs => isJsonSafeDict kvs
  | _ => true
/-- JSON-safety of every element of an embedded list. -/
def isJsonSafeList : PyList → Bool
  | .nil => true
  | .cons v tl => isJsonSafe v && isJsonSafeList tl
/-- JSON-safety of every value of an embedded dict. -/
def isJsonSafeDict : PyDict → Bool
  | .nil => true
  | .cons _ v tl => isJsonSafe v && isJsonSafeDict tl
end

/-- Python `str.upper()` on the ASCII tickers this code base handles,
defined by structural recursion over the character list. -/
def pyUpper (s : String) : String := ⟨s.data.map Char.toUpper⟩

/-- Python `str.strip()`: drop whitespace from both ends. -/
def pyStrip (s : String) : String :=
  ⟨((s.data.dropWhile Char.isWhitespace).reverse.dropWhile Char.isWhitespace).reverse⟩

/-- Python `str.endswith(suffix)`. -/
def strEndsWith (s sfx : String) : Bool := sfx.data.isSuffixOf s.data

/-- Python slicing `s[:-n]`: drop the last `n` characters. -/
def strDropRight (s : String) (n : Nat) : String := ⟨s.data.take (s.data.length - n)⟩

/-- Python `str.lstrip("$")`: drop leading dollar signs. -/
def lstripDollar (s : String) : String := ⟨s.data.dropWhile (fun c => c = '$')⟩

/-- Python float subtraction on the embedded floats: NaN propagates,
`inf - inf` is NaN, an infinity dominates a finite operand. -/
def pySub : PyFloat → PyFloat → PyFloat
  | .nan, _ => .nan
  | _, .nan => .nan
  | .finite a, .finite b => .finite (a - b)
  | .inf, .inf => .nan
  | .inf, _ => .inf
  | .ninf, .ninf => .nan
  | .ninf, _ => .ninf
  | .finite _, .inf => .ninf
  | .finite _, .ninf => .inf

/-- Python float multiplication on the embedded floats: NaN propagates,
`inf * 0` is NaN, otherwise signs multiply. -/
def pyMul : PyFloat → PyFloat → PyFloat
  | .nan, _ => .nan
  | _, .nan => .nan
  | .finite a, .finite b => .finite (a * b)
  | .inf, .finite b => if 0 < b then .inf else if b < 0 then .ninf else .nan
  | .ninf, .finite b => if 0 < b then .ninf else if b < 0 then .inf else .nan
  | .finite a, .inf => if 0 < a then .inf else if a < 0 then .ninf else .nan
  | .finite a, .ninf => if 0 < a then .ninf else if a < 0 then .inf else .nan
  | .inf, .inf => .inf
  | .inf, .ninf => .ninf
  | .ninf, .inf => .ninf
  | .ninf, .ninf => .inf

/-- Python float division: dividing by `0.0` raises `ZeroDivisionError`
(`none`); NaN propagates; a finite value over an infinity is `0.0`;
infinity over infinity is NaN. -/
def pyDiv (a b : PyFloat) : Option PyFloat :=
  match a, b with
  | _, .finite q =>
    if q = 0 then none
    else
      match a with
      | .nan => some .nan
      | .finite p => some (.finite (p / q))
      | .inf => some (if 0 < q then .inf else .ninf)
      | .ninf => some (if 0 < q then .ninf else .inf)
  | .nan, _ => some .nan
  | _, .nan => some .nan
  | .finite _, .inf => some (.finite 0)
  | .finite _, .ninf => some (.finite 0)
  | .inf, .inf => some .nan
  | .inf, .ninf => some .nan
  | .ninf, .inf => some .nan
  | .ninf, .ninf => some .nan

/-- Python `int()` on a float: truncation toward zero; raises (`none`) on
NaN and the infinities. -/
def pyToInt : PyFloat → Option Int
  | .finite q => some (Int.tdiv q.num (Int.ofNat q.den))
  | _ => none

/-- The value `WebSocketManager._update_symbol_loop` passes to
`redis_client.set("realtime:" + symbol, ..., ttl=30)`: the `asdict` of the
`StockData` dataclass built from the latest bar's close, the provider's
`previousClose` reference (defaulting to the latest close), and the latest
volume.  `none` means the construction raised (`ZeroDivisionError` from the
percent computation or `int()` on a non-finite volume), in which case the
loop's generic handler skips the tick.  Note: no `sanitize_for_json` is
applied on this write path. -/
def wsTickValue (symbol : String) (close prevClose volume : PyFloat)
    (ts : String) : Option PyVal :=
  match pyDiv (pySub close prevClose) prevClose with
  | none => none
  | some ratio =>
    match pyToInt volume with
    | none => none
    | some vol =>
      some (.vDict (pyDictOf
        [("symbol", .vStr symbol),
         ("price", .vFloat close),
         ("change", .vFloat (pySub close prevClose)),
         ("change_percent", .vFloat (pyMul ratio (.finite 100))),
         ("volume", .vInt vol),
         ("timestamp", .vStr ts)]))

/-- `INDEX_SYMBOLS` from `app/utils/yfinance_helper.py`: tickers used
verbatim, with no exchange suffix. -/
def INDEX_SYMBOLS : List String := ["^NSEI", "^NSEBANK", "^DJI", "^FTSE", "^BSESN"]

/-- The candidate list built by `get_safe_ticker_data_sync`
(`app/utils/yfinance_helper.py`): strip leading `$`, uppercase, then:
index symbols as-is; `.BSE` tickers as `base.BO` then `base.NS`; tickers
already suffixed `.NS`/`.BO` as-is; plain tickers as `.NS` then `.BO`.
The caller tries candidates in this order and keeps the first with a
non-empty history. -/
def symbol_variations (symbol : String) : List String :=
  let clean := pyUpper (lstripDollar symbol)
  if clean ∈ INDEX_SYMBOLS then [clean]
  else if strEndsWith clean ".BSE" then
    let base := strDropRight clean 4
    [base ++ ".BO", base ++ ".NS"]
  else if strEndsWith clean ".NS" || strEndsWith clean ".BO" then [clean]
  else [clean ++ ".NS", clean ++ ".BO"]

/-- `settings.CACHE_TTL_REALTIME` from `app/core/config.py` (seconds). -/
def CACHE_TTL_REALTIME : Nat := 30

/-- `settings.CACHE_TTL_HISTORICAL` from `app/core/config.py` (seconds). -/
def CACHE_TTL_HISTORICAL : Nat := 86400

/-- The period mapping of `StockService._get_period_dates`, in days
(`1W` is `timedelta(weeks=1)`, seven days). -/
def period_mapping : List (String × Int) :=
  [("1D", 1), ("1W", 7), ("15D", 15), ("1M", 30), ("6M", 180),
   ("1Y", 365), ("5Y", 365 * 5)]

/-- `StockService._get_period_dates`, with dates as day numbers: returns
the `(start?, end)` window; `ALL` has no start bound; a period key found in
the mapping subtracts its delta from today; anything else falls through to
the 180-day (`6M`) default. -/
def get_period_dates (period : String) (today : Int) : Option Int × Int :=
  if pyUpper period = "ALL" then (none, today)
  else
    match period_mapping.lookup (pyUpper period) with
    | some d => (some (today - d), today)
    | none => (some (today - 180), today)

/-- What `get_history` asks the provider for. -/
inductive FetchPlan where
  | noFetch
  | fullHistory
  | window (startD endD : Int)
deriving DecidableEq

/-- The fetch decision of `StockService.get_history` (steps 4-5) combined
with the request `_fetch_and_store_history` issues: no stored date means a
full-history fetch (`period='max'`); a latest stored date `d` strictly
before `today - 1` means a ranged fetch `history(start=d+1, end=today+1)`
(the provider treats `end` as exclusive); otherwise no provider call. -/
def determine_fetch (latestDbDate : Option Int) (today : Int) : FetchPlan :=
  match latestDbDate with
  | none => .fullHistory
  | some d => if d < today - 1 then .window (d + 1) (today + 1) else .noFetch

/-- The numeric fields of one `stock_history` row.  Columns are nullable:
`_store_history_to_db` writes `None` for provider fields that are NaN. -/
structure BarRow where
  openP : Option PyFloat
  high : Option PyFloat
  low : Option PyFloat
  close : Option PyFloat
  volume : Option Int
deriving DecidableEq

/-- One prepared row of the bulk upsert of `_store_history_to_db`, keyed by
`(symbol, date)` with dates as day numbers. -/
structure BarInsert where
  sym : String
  day : Int
  row : BarRow
deriving DecidableEq

/-- The `stock_history` table as a map from `(symbol, date)` to the row's
numeric fields: the unique index `idx_symbol_date_unique` guarantees at
most one row per key, which the map type captures. -/
def HistTable := String × Int → Option BarRow

/-- One `INSERT ... ON CONFLICT (symbol, date) DO UPDATE` row write:
insert if the key is absent, overwrite every numeric field if present. -/
def upsertBar (t : HistTable) (b : BarInsert) : HistTable :=
  Function.update t (b.sym, b.day) (some b.row)

/-- The bulk write of `_store_history_to_db`: each prepared row is upserted
in order. -/
def upsertBars (t : HistTable) (bs : List BarInsert) : HistTable :=
  bs.foldl upsertBar t

/-- One raw provider bar (a row of the yfinance DataFrame). -/
structure RawBar where
  rOpen : PyFloat
  rHigh : PyFloat
  rLow : PyFloat
  rClose : PyFloat
  rVolume : PyFloat
deriving DecidableEq

/-- `float(x) if not pd.isna(x) else None` on a price field: NaN becomes
`None`; anything else (infinities included — `pd.isna` is false on them)
is stored as-is. -/
def provToCell : PyFloat → Option PyFloat
  | .nan => none
  | v => some v

/-- `int(x) if not pd.isna(x) else None` on the volume field: NaN becomes
`None`; a finite value truncates; `int()` on an infinity raises
`OverflowError` (`none` result), aborting the whole batch. -/
def volCell : PyFloat → Option (Option Int)
  | .nan => some none
  | .finite q => some (some (Int.tdiv q.num (Int.ofNat q.den)))
  | _ => none

/-- The `insert_data` preparation loop of `_store_history_to_db` over the
DataFrame rows `(date, bar)`: `none` when some row raised. -/
def prepareInsertData (symU : String) : List (Int × RawBar) → Option (List BarInsert)
  | [] => some []
  | (day, r) :: rest =>
    match volCell r.rVolume with
    | none => none
    | some vol =>
      match prepareInsertData symU rest with
      | none => none
      | some tl =>
        some (⟨symU, day,
          ⟨provToCell r.rOpen, provToCell r.rHigh, provToCell r.rLow,
           provToCell r.rClose, vol⟩⟩ :: tl)

/-- `StockService._store_history_to_db`: prepare the rows (uppercasing the
symbol), then bulk-upsert them in one statement.  An exception while
preparing or executing rolls the batch back, leaving the table unchanged;
an empty `insert_data` skips the write. -/
def store_history_to_db (t : HistTable) (symbol : String)
    (data : List (Int × RawBar)) (writeOk : Bool) : HistTable :=
  match prepareInsertData (pyUpper symbol) data with
  | none => t
  | some rows => if rows.isEmpty then t else if writeOk then upsertBars t rows else t

/-- The last row a batch writes for a given key (later batch entries
override earlier ones). -/
def lastRowFor : List BarInsert → String × Int → Option BarRow
  | [], _ => none
  | b :: bs, k =>
    match lastRowFor bs k with
    | some r => some r
    | none => if (b.sym, b.day) = k then some b.row else none

/-- The `stocks` table fields `_get_latest_db_quote` and the quote path
read. -/
structure StockInfo where
  company_name : String
  exchange : String
  sector : Option String
deriving DecidableEq

/-- A nullable text column rendered into a response dict. -/
def optStrVal : Option String → PyVal
  | some s => .vStr s
  | none => .vNull

/-- `StockService._get_latest_db_quote`: build an off-hours quote from the
latest stored bar.  `none` when there is no bar, no `stocks` record, or the
dict construction raised (`float(None)` on a null price column) — every
exception is caught inside the helper and surfaces as `None`. -/
def get_latest_db_quote (symbol : String) (latestRow : Option BarRow)
    (stockInfo : Option StockInfo) (now : String) : Option PyVal :=
  match latestRow with
  | none => none
  | some row =>
    match stockInfo with
    | none => none
    | some si =>
      match row.close, row.high, row.low, row.openP with
      | some c, some h, some l, some o =>
        some (.vDict (pyDictOf
          [("stock", .vDict (pyDictOf
             [("symbol", .vStr (pyUpper symbol)),
              ("name", .vStr si.company_name),
              ("exchange", .vStr si.exchange),
              ("currentPrice", .vFloat c),
              ("change", .vFloat (.finite 0)),
              ("changePercent", .vFloat (.finite 0)),
              ("volume", .vInt (row.volume.getD 0)),
              ("dayHigh", .vFloat h),
              ("dayLow", .vFloat l),
              ("open", .vFloat o),
              ("sector", optStrVal si.sector)])),
           ("source", .vStr "database"),
           ("timestamp", .vStr now)]))
      | _, _, _, _ => none

/-- One `redis_client.set(key, value, ttl)` call. -/
structure CacheWrite where
  key : String
  value : PyVal
  ttl : Nat

/-- The environment one `get_quote` call runs in: the cache's answer, the
market-hours predicate's value, the store's answers, and the fully built
response `_fetch_quote_from_yfinance` would return (`none` when that helper
fails; it catches its own exceptions). -/
structure QuoteEnv where
  cached : Option PyVal
  marketOpen : Bool
  latestRow : Option BarRow
  stockInfo : Option StockInfo
  providerResp : Option PyVal
  now : String

/-- What a `get_quote` call produces: its return value, the cache writes it
performed, and whether it reached the provider-fetch step. -/
structure QuoteOutcome where
  result : Option PyVal
  writes : List CacheWrite
  providerCalled : Bool

/-- Step 3 of `get_quote`: fetch from yfinance and, on success, cache with
the base TTL during market hours and ten times that off hours. -/
def quoteFetchStep (key : String) (env : QuoteEnv) : QuoteOutcome :=
  match env.providerResp with
  | some q =>
    ⟨some q,
     [⟨key, q, if env.marketOpen then CACHE_TTL_REALTIME else CACHE_TTL_REALTIME * 10⟩],
     true⟩
  | none => ⟨none, [], true⟩

/-- `StockService.get_quote`: cache hit returns immediately; on a miss with
the market closed, try the latest stored bar (cached with `10 *
CACHE_TTL_REALTIME` on success); otherwise fall through to the provider
fetch.  Total by construction: the Python body is wrapped in a
catch-all `except` returning `None`. -/
def get_quote (symbol : String) (env : QuoteEnv) : QuoteOutcome :=
  let key := "quote:" ++ pyUpper symbol
  match env.cached with
  | some c => ⟨some c, [], false⟩
  | none =>
    if env.marketOpen then quoteFetchStep key env
    else
      match get_latest_db_quote symbol env.latestRow env.stockInfo env.now with
      | some dbq => ⟨some dbq, [⟨key, dbq, CACHE_TTL_REALTIME * 10⟩], false⟩
      | none => quoteFetchStep key env

/-- One row of the history response payload, as built by
`_get_history_from_db`'s dict comprehension (dates as day numbers standing
for their `%Y-%m-%d` rendering). -/
structure HistBar where
  timestamp : Int
  openP : PyFloat
  high : PyFloat
  low : PyFloat
  close : PyFloat
  volume : Int
deriving DecidableEq

/-- The per-row transform of `_get_history_from_db`: a null numeric column
comes out as `0` (`float(row.open) if row.open is not None else 0`, and
likewise for the other fields). -/
def row_to_hist_dict (day : Int) (r : BarRow) : HistBar :=
  { timestamp := day,
    openP := r.openP.getD (.finite 0),
    high := r.high.getD (.finite 0),
    low := r.low.getD (.finite 0),
    close := r.close.getD (.finite 0),
    volume := r.volume.getD 0 }

/-- `_get_history_from_db`'s result list over the rows the range query
returned (already ordered by date ascending). -/
def get_history_from_db (rows : List (Int × BarRow)) : List HistBar :=
  rows.map (fun p => row_to_hist_dict p.1 p.2)

/-- A bar row with its null fields replaced by the stored zeros the read
path would render identically. -/
def fillZeros (r : BarRow) : BarRow :=
  { openP := some (r.openP.getD (.finite 0)),
    high := some (r.high.getD (.finite 0)),
    low := some (r.low.getD (.finite 0)),
    close := some (r.close.getD (.finite 0)),
    volume := some (r.volume.getD 0) }

/-- The result record `get_history` returns (`data`, `source`,
`timestamp`, `period`, `records`, `error`). -/
structure HistResult where
  data : List HistBar
  source : String
  timestamp : String
  period : String
  records : Nat
  error : Option String

/-- The environment one `get_history` call runs in.  Collaborator calls
that catch their own exceptions surface as plain optional values
(`yahooSymbol`, `latestDbDate`); the provider fetch and the range read keep
an explicit error case because their failure modes decide the claims about
error handling.  `rangeRows` is the durable store's answer to
`_get_history_from_db`'s range query (the store is an external
collaborator; its post-upsert contents are its own). -/
structure HistEnv where
  cached : Option HistResult
  yahooSymbol : Option String
  latestDbDate : Option Int
  providerBars : Except Unit (List (Int × RawBar))
  rangeRows : Except Unit (List (Int × BarRow))
  today : Int
  now : String

/-- `StockService.get_history`: cache hit returns verbatim; a missing
yahoo-symbol mapping returns the structured "Symbol not found" error;
otherwise decide the fetch plan, let `_fetch_and_store_history` run (it
catches every provider/store exception internally and stores nothing on
failure), read the requested window back from the store
(`_get_history_from_db` turns its own exceptions into `[]`), and assemble
the response.  The response is also cached with `CACHE_TTL_HISTORICAL`; no
claim concerns that write, so it is not part of the outcome.  Total by
construction, mirroring the catch-all `except` at the end of the Python
body. -/
def get_history (symbol period : String) (env : HistEnv) : HistResult :=
  match env.cached with
  | some c => c
  | none =>
    match env.yahooSymbol with
    | none => ⟨[], "error", env.now, period, 0, some "Symbol not found in database"⟩
    | some _ =>
      let plan := determine_fetch env.latestDbDate env.today
      let rows :=
        match env.rangeRows with
        | .ok rs => rs
        | .error _ => []
      let data := get_history_from_db rows
      ⟨data,
       (match plan with
        | .noFetch => "database"
        | _ => "database+yfinance"),
       env.now, period, data.length, none⟩

/-- The events the WebSocket fan-out engine reacts to.  Send failures
during a broadcast trigger `disconnect(client)` in the code, so they are
covered by a `disconnect` event in a sequence. -/
inductive WSOp where
  | connect (client : String)
  | subscribe (client : String) (symbols : List String)
  | unsubscribe (client : String) (symbol : String)
  | disconnect (client : String)

/-- The subscription bookkeeping of `WebSocketManager`: `subscriptions`
(client id to its symbol set, `none` when the client is not registered),
`symbol_subscribers` (symbol to its client set, `none` when absent from the
dict), and the keys of `update_tasks` (which symbols have a registered poll
task).  `active_connections` holds transport handles and plays no part in
the task lifecycle, so it is not modelled. -/
structure WSState where
  subscriptions : String → Option (Finset String)
  symbol_subscribers : String → Option (Finset String)
  update_tasks : Finset String

/-- A fresh `WebSocketManager()`. -/
def initWS : WSState := ⟨fun _ => none, fun _ => none, ∅⟩

/-- `WebSocketManager.connect`: register the client with an empty symbol
set. -/
def wsConnect (c : String) (st : WSState) : WSState :=
  { st with subscriptions := Function.update st.subscriptions c (some ∅) }

/-- One iteration of the `subscribe_symbols` loop: normalize the symbol
(`upper().strip()`), skip it if empty, add it to the client's set and the
client to its subscriber set, and register a poll task when the subscriber
set's size just became one. -/
def subscribeOne (c : String) (st : WSState) (raw : String) : WSState :=
  let sym := pyStrip (pyUpper raw)
  if sym = "" then st
  else
    match st.subscriptions c with
    | none => st
    | some cs =>
      let subs1 := insert c ((st.symbol_subscribers sym).getD ∅)
      let st1 : WSState :=
        { subscriptions := Function.update st.subscriptions c (some (insert sym cs)),
          symbol_subscribers := Function.update st.symbol_subscribers sym (some subs1),
          update_tasks := st.update_tasks }
      if subs1.card = 1 then { st1 with update_tasks := insert sym st1.update_tasks }
      else st1

/-- `WebSocketManager.subscribe_symbols`: a no-op for unregistered clients;
otherwise process the symbols in order.  (The trailing cached-tick push
sends messages but mutates no subscription state.) -/
def subscribe_symbols (c : String) (syms : List String) (st : WSState) : WSState :=
  if (st.subscriptions c).isSome then syms.foldl (subscribeOne c) st else st

/-- First half of `unsubscribe_symbol`: discard the symbol from the
client's set (when the client is registered). -/
def unsubClientSide (c sym : String) (st : WSState) : WSState :=
  match st.subscriptions c with
  | some cs =>
    { st with subscriptions := Function.update st.subscriptions c (some (cs.erase sym)) }
  | none => st

/-- Second half of `unsubscribe_symbol`: discard the client from the
symbol's subscriber set; when that set empties, cancel and drop the poll
task (if registered) and delete the subscriber entry. -/
def unsubSubscriberSide (c sym : String) (st : WSState) : WSState :=
  match st.symbol_subscribers sym with
  | none => st
  | some subs =>
    let subs1 := subs.erase c
    if subs1 = ∅ then
      { st with
        symbol_subscribers := Function.update st.symbol_subscribers sym none,
        update_tasks := st.update_tasks.erase sym }
    else
      { st with symbol_subscribers := Function.update st.symbol_subscribers sym (some subs1) }

/-- `WebSocketManager.unsubscribe_symbol`: uppercase the symbol, then run
both halves in the order the code does. -/
def unsubscribe_symbol (c : String) (raw : String) (st : WSState) : WSState :=
  unsubSubscriberSide c (pyUpper raw) (unsubClientSide c (pyUpper raw) st)

/-- `WebSocketManager.disconnect`: unsubscribe the client from a copy of
its symbol set, then deregister it. -/
def ws_disconnect (c : String) (st : WSState) : WSState :=
  match st.subscriptions c with
  | none => st
  | some cs =>
    let st1 := (cs.sort (fun a b => a ≤ b)).foldl (fun acc sym => unsubscribe_symbol c sym acc) st
    { st1 with subscriptions := Function.update st1.subscriptions c none }

/-- Apply one fan-out event. -/
def applyWSOp (st : WSState) (op : WSOp) : WSState :=
  match op with
  | .connect c => wsConnect c st
  | .subscribe c syms => subscribe_symbols c syms st
  | .unsubscribe c sym => unsubscribe_symbol c sym st
  | .disconnect c => ws_disconnect c st

/-- Run a finite event sequence from a fresh manager. -/
def runWS (ops : List WSOp) : WSState := ops.foldl applyWSOp initWS

/-- The subscriber set of a symbol (empty when the dict has no entry). -/
def subscribersOf (st : WSState) (sym : String) : Finset String :=
  (st.symbol_subscribers sym).getD ∅

/-- The reference-counted lifecycle invariant: a poll task is registered in
`update_tasks` exactly for the symbols whose subscriber set is
non-empty. -/
def TaskInv (st : WSState) : Prop :=
  ∀ sym, sym ∈ st.update_tasks ↔ subscribersOf st sym ≠ ∅

mutual
theorem sanitize_for_json_safe : ∀ v : PyVal, isJsonSafe (sanitize_for_json v) = true
  | .vNull => rfl
  | .vBool _ => rfl
  | .vInt _ => rfl
  | .vFloat (.finite _) => rfl
  | .vFloat .nan => rfl
  | .vFloat .inf => rfl
  | .vFloat .ninf => rfl
  | .vStr _ => rfl
  | .vDatetime _ => rfl
  | .vList xs => sanitizeList_safe xs
  | .vDict kvs => sanitizeDict_safe kvs
theorem sanitizeList_safe : ∀ xs : PyList, isJsonSafeList (sanitizeList xs) = true
  | .nil => rfl
  | .cons v tl => by
    show (isJsonSafe (sanitize_for_json v) && isJsonSafeList (sanitizeList tl)) = true
    rw [sanitize_for_json_safe v, sanitizeList_safe tl]
    rfl
theorem sanitizeDict_safe : ∀ kvs : PyDict, isJsonSafeDict (sanitizeDict kvs) = true
  | .nil => rfl
  | .cons k v tl => by
    show (isJsonSafe (sanitize_for_json v) && isJsonSafeDict (sanitizeDict tl)) = true
    rw [sanitize_for_json_safe v, sanitizeDict_safe tl]
    rfl
end

theorem upsertBars_apply : ∀ (bs : List BarInsert) (t : HistTable) (k : String × Int),
    upsertBars t bs k =
      match lastRowFor bs k with
      | some r => some r
      | none => t k := by
  intro bs
  induction bs with
  | nil => intro t k; rfl
  | cons b bs ih =>
    intro t k
    show upsertBars (upsertBar t b) bs k = _
    rw [ih]
    show _ = (match (match lastRowFor bs k with
        | some r => some r
        | none => if (b.sym, b.day) = k then some b.row else none : Option BarRow) with
      | some r => some r
      | none => t k)
    cases lastRowFor bs k with
    | some r => rfl
    | none =>
      show upsertBar t b k = _
      unfold upsertBar
      rw [Function.update_apply]
      by_cases hk : (b.sym, b.day) = k
      · rw [if_pos hk, if_pos hk.symm]
      · rw [if_neg hk, if_neg (fun h => hk h.symm)]

theorem upsertBars_idem (t : HistTable) (bs : List BarInsert) :
    upsertBars (upsertBars t bs) bs = upsertBars t bs := by
  funext k
  rw [upsertBars_apply, upsertBars_apply]
  cases h : lastRowFor bs k with
  | some r => rfl
  | none => rfl

/-- C3: bar upserts are idempotent — re-applying the same batch (and the
whole of `_store_history_to_db`, preparation step included) leaves the
`stock_history` table exactly as one application does: the same single row
per `(symbol, date)` key with the same field values. -/
theorem c3_idempotent_upsert :
    (∀ (t : HistTable) (bs : List BarInsert),
      upsertBars (upsertBars t bs) bs = upsertBars t bs) ∧
    (∀ (t : HistTable) (symbol : String) (data : List (Int × RawBar)) (writeOk : Bool),
      store_history_to_db (store_history_to_db t symbol data writeOk) symbol data writeOk =
        store_history_to_db t symbol data writeOk) := by
  refine ⟨upsertBars_idem, ?_⟩
  intro t symbol data writeOk
  unfold store_history_to_db
  cases hp : prepareInsertData (pyUpper symbol) data with
  | none => rfl
  | some rows =>
    cases he : rows.isEmpty with
    | true =>
      have hnil : rows = [] := by simpa using he
      subst hnil
      simp [upsertBars]
    | false =>
      have hne : ¬rows = [] := by simpa using he
      cases writeOk with
      | false => simp [hne]
      | true => simp [hne, upsertBars_idem]

/-- C2: gap-fill minimality of the history sync path — a stored latest
date `d` strictly before `today - 1` yields exactly the provider window
`[d+1, today+1)`, whose dates are all strictly after `d`; an empty store
yields the full-history fetch; a latest date of `today - 1` or later yields
no provider call. -/
theorem c2_gap_fill_minimality :
    (∀ d today : Int, d < today - 1 →
      determine_fetch (some d) today = .window (d + 1) (today + 1) ∧
      (∀ x : Int, d + 1 ≤ x → x < today + 1 → d < x)) ∧
    (∀ today : Int, determine_fetch none today = .fullHistory) ∧
    (∀ d today : Int, today - 1 ≤ d → determine_fetch (some d) today = .noFetch) := by
  refine ⟨fun d today h => ⟨?_, fun x hx _ => by omega⟩, fun _ => rfl, fun d today h => ?_⟩
  · simp only [determine_fetch]
    rw [if_pos h]
  · simp only [determine_fetch]
    rw [if_neg (by omega)]

theorem c2_witness :
    ((10 : Int) < 20 - 1 ∧ determine_fetch (some 10) 20 = .window 11 21) ∧
    ((20 : Int) - 1 ≤ 19 ∧ determine_fetch (some 19) 20 = .noFetch) ∧
    determine_fetch none 20 = .fullHistory :=
  ⟨⟨by decide, (c2_gap_fill_minimality.1 10 20 (by decide)).1⟩,
   ⟨by decide, c2_gap_fill_minimality.2.2 19 20 (by decide)⟩,
   c2_gap_fill_minimality.2.1 20⟩

/-- C6 fails as stated: an unknown period string defaults to the 180-day
(`6M`) window, which is not the widest supported lookback — both the `5Y`
mapping entry (1825 days) and `ALL` (no start bound) are wider. -/
theorem c6_counterexample :
    get_period_dates "QQ" 0 = (some (-180), 0) ∧
    get_period_dates "QQ" 0 ≠ (some (0 - (365 * 5 : Int)), 0) ∧
    get_period_dates "QQ" 0 ≠ get_period_dates "ALL" 0 := by
  refine ⟨by decide, by decide, by decide⟩

/-- C6 amended: for every period string that is not `ALL` (case-insensitive)
and is absent from the period mapping, `_get_period_dates` returns the
180-day default window (the `6M` lookback) rather than failing — not the
widest supported lookback. -/
theorem c6_amended (period : String) (today : Int)
    (hall : pyUpper period ≠ "ALL")
    (hmap : period_mapping.lookup (pyUpper period) = none) :
    get_period_dates period today = (some (today - 180), today) := by
  unfold get_period_dates
  rw [if_neg hall, hmap]

theorem c6_witness : get_period_dates "QQ" 7 = (some (7 - 180), 7) :=
  c6_amended "QQ" 7 (by decide) (by decide)

/-- C7 fails as stated: for a `.BSE` ticker the resolver returns the
originating-exchange variant (`.BO`) first and the primary-exchange variant
(`.NS`) second — not the primary-exchange variant first as claimed
(the primary exchange is NSE: plain tickers resolve to `.NS` first). -/
theorem c7_counterexample :
    symbol_variations "ABC.BSE" = ["ABC.BO", "ABC.NS"] ∧
    symbol_variations "ABC.BSE" ≠ ["ABC.NS", "ABC.BO"] ∧
    symbol_variations "ABC" = ["ABC.NS", "ABC.BO"] := by
  refine ⟨by decide, by decide, by decide⟩

/-- C7 amended: a ticker ending with the recognized alternate exchange
suffix `.BSE` resolves to exactly two candidates, the originating-exchange
(`.BO`) variant first and the primary-exchange (`.NS`) variant second as
fallback; a plain ticker with no recognized suffix resolves to the fixed
priority order with the primary exchange first: `.NS` then `.BO`. -/
theorem c7_amended :
    (∀ s : String,
      (pyUpper (lstripDollar s) ∉ INDEX_SYMBOLS) →
      (strEndsWith (pyUpper (lstripDollar s)) ".BSE" = true) →
      symbol_variations s =
        [strDropRight (pyUpper (lstripDollar s)) 4 ++ ".BO",
         strDropRight (pyUpper (lstripDollar s)) 4 ++ ".NS"]) ∧
    (∀ s : String,
      (pyUpper (lstripDollar s) ∉ INDEX_SYMBOLS) →
      (strEndsWith (pyUpper (lstripDollar s)) ".BSE" = false) →
      (strEndsWith (pyUpper (lstripDollar s)) ".NS" = false) →
      (strEndsWith (pyUpper (lstripDollar s)) ".BO" = false) →
      symbol_variations s =
        [pyUpper (lstripDollar s) ++ ".NS",
         pyUpper (lstripDollar s) ++ ".BO"]) := by
  constructor
  · intro s hidx hbse
    unfold symbol_variations
    rw [if_neg hidx, if_pos hbse]
  · intro s hidx hbse hns hbo
    unfold symbol_variations
    rw [if_neg hidx, if_neg (by simp [hbse]), if_neg (by simp [hns, hbo])]

theorem c7_witness :
    symbol_variations "tcs.BSE" = ["TCS.BO", "TCS.NS"] ∧
    symbol_variations "$infy" = ["INFY.NS", "INFY.BO"] :=
  ⟨c7_amended.1 "tcs.BSE" (by decide) (by decide),
   c7_amended.2 "$infy" (by decide) (by decide) (by decide) (by decide)⟩

/-- C9 fails as stated: not every cache-write path sanitizes first.  The
WebSocket poll loop writes the raw `asdict(StockData(...))` tick to the
`realtime:` cache key without `sanitize_for_json`; with a NaN close price a
value containing NaN is cached. -/
theorem c9_counterexample :
    (wsTickValue "ABC" .nan (.finite 100) (.finite 5000) "T").map isJsonSafe =
      some false := by
  decide

/-- C9 amended: `sanitize_for_json`'s output is always free of non-finite
floats and of datetime objects — NaN and the infinities become null and
datetimes become their ISO-8601 strings — and the quote/history paths cache
sanitized payloads; but the WebSocket realtime tick write path does not
apply it, so a non-finite fetched value can reach that cache key. -/
theorem c9_amended :
    (∀ v : PyVal, isJsonSafe (sanitize_for_json v) = true) ∧
    (∀ f : PyFloat, (f = .nan ∨ f = .inf ∨ f = .ninf) →
      sanitize_for_json (.vFloat f) = .vNull) ∧
    (∀ iso : String, sanitize_for_json (.vDatetime iso) = .vStr iso) := by
  refine ⟨sanitize_for_json_safe, ?_, fun _ => rfl⟩
  rintro f (rfl | rfl | rfl) <;> rfl

theorem c9_witness :
    sanitize_for_json (.vFloat .nan) = .vNull ∧
    isJsonSafe (sanitize_for_json (.vFloat .nan)) = true :=
  ⟨c9_amended.2.1 .nan (Or.inl rfl), c9_amended.1 (.vFloat .nan)⟩

/-- C10: a null numeric column of a stored bar is rendered as `0` by the
history read path (`_get_history_from_db`), for each of open, high, low,
close and volume; consequently a stored-null row and a stored-zero row
produce identical response rows, so callers cannot tell them apart. -/
theorem c10_null_bars_as_zero (day : Int) (r : BarRow) :
    (r.openP = none → (row_to_hist_dict day r).openP = .finite 0) ∧
    (r.high = none → (row_to_hist_dict day r).high = .finite 0) ∧
    (r.low = none → (row_to_hist_dict day r).low = .finite 0) ∧
    (r.close = none → (row_to_hist_dict day r).close = .finite 0) ∧
    (r.volume = none → (row_to_hist_dict day r).volume = 0) ∧
    row_to_hist_dict day (fillZeros r) = row_to_hist_dict day r := by
  refine ⟨fun h => ?_, fun h => ?_, fun h => ?_, fun h => ?_, fun h => ?_, ?_⟩ <;>
    simp_all [row_to_hist_dict, fillZeros]

theorem c10_witness :
    (row_to_hist_dict 0 ⟨none, none, none, none, none⟩).openP = .finite 0 ∧
    (row_to_hist_dict 0 ⟨none, none, none, none, none⟩).high = .finite 0 ∧
    (row_to_hist_dict 0 ⟨none, none, none, none, none⟩).low = .finite 0 ∧
    (row_to_hist_dict 0 ⟨none, none, none, none, none⟩).close = .finite 0 ∧
    (row_to_hist_dict 0 ⟨none, none, none, none, none⟩).volume = 0 :=
  ⟨(c10_null_bars_as_zero 0 ⟨none, none, none, none, none⟩).1 rfl,
   (c10_null_bars_as_zero 0 ⟨none, none, none, none, none⟩).2.1 rfl,
   (c10_null_bars_as_zero 0 ⟨none, none, none, none, none⟩).2.2.1 rfl,
   (c10_null_bars_as_zero 0 ⟨none, none, none, none, none⟩).2.2.2.1 rfl,
   (c10_null_bars_as_zero 0 ⟨none, none, none, none, none⟩).2.2.2.2.1 rfl⟩

/-- C4 fails as stated: a stored bar is not sufficient for the off-hours
database fallback.  With the market closed, the cache empty and a latest
bar present, `get_quote` still reaches the provider when (a) the `stocks`
table has no record for the symbol, or (b) the latest bar's `close` column
is null (the NaN-to-null write policy makes this reachable), because
`_get_latest_db_quote` returns `None` in both cases. -/
theorem c4_counterexample :
    (get_quote "ABC"
      ⟨none, false,
       some ⟨some (.finite 100), some (.finite 110), some (.finite 90),
             some (.finite 105), some 5000⟩,
       none, some (.vStr "P"), "T"⟩).providerCalled = true ∧
    (get_quote "ABC"
      ⟨none, false,
       some ⟨some (.finite 100), some (.finite 110), some (.finite 90),
             none, some 5000⟩,
       some ⟨"Acme", "NSE", some "IT"⟩, some (.vStr "P"), "T"⟩).providerCalled = true :=
  ⟨rfl, rfl⟩

/-- C4 amended: when the market-hours predicate is false, the cache misses,
the store holds a latest bar whose open, high, low and close columns are
all non-null, and the `stocks` table has a record for the symbol, then
`get_quote` returns the quote built from that bar with `change = 0` and
`changePercent = 0`, performs no provider call, and caches it under
`quote:SYMBOL` with the off-hours TTL `10 * CACHE_TTL_REALTIME`. -/
theorem c4_amended (symbol : String) (env : QuoteEnv) (row : BarRow)
    (si : StockInfo) (o hi lo cl : PyFloat)
    (hc : env.cached = none) (hm : env.marketOpen = false)
    (hr : env.latestRow = some row) (hsi : env.stockInfo = some si)
    (ho : row.openP = some o) (hh : row.high = some hi) (hl : row.low = some lo)
    (hcl : row.close = some cl) :
    ∃ q, get_quote symbol env =
        ⟨some q, [⟨"quote:" ++ pyUpper symbol, q, CACHE_TTL_REALTIME * 10⟩], false⟩ ∧
      pyGet2 q "stock" "change" = some (.vFloat (.finite 0)) ∧
      pyGet2 q "stock" "changePercent" = some (.vFloat (.finite 0)) ∧
      pyGet2 q "stock" "currentPrice" = some (.vFloat cl) ∧
      pyGet2 q "stock" "dayHigh" = some (.vFloat hi) ∧
      pyGet2 q "stock" "dayLow" = some (.vFloat lo) ∧
      pyGet2 q "stock" "open" = some (.vFloat o) ∧
      pyGet q "source" = some (.vStr "database") := by
  obtain ⟨cached, mo, lr, sinfo, pr, now⟩ := env
  obtain ⟨ro, rh, rl, rc, rv⟩ := row
  simp only at hc hm hr hsi ho hh hl hcl
  subst hc hm hr hsi ho hh hl hcl
  exact ⟨_, rfl, rfl, rfl, rfl, rfl, rfl, rfl, rfl⟩

theorem c4_witness :
    ∃ q, get_quote "abc"
        ⟨none, false,
         some ⟨some (.finite 100), some (.finite 110), some (.finite 90),
               some (.finite 105), some 5000⟩,
         some ⟨"Acme", "NSE", some "IT"⟩, none, "T"⟩ =
        ⟨some q, [⟨"quote:ABC", q, CACHE_TTL_REALTIME * 10⟩], false⟩ ∧
      pyGet2 q "stock" "change" = some (.vFloat (.finite 0)) ∧
      pyGet2 q "stock" "changePercent" = some (.vFloat (.finite 0)) ∧
      pyGet2 q "stock" "currentPrice" = some (.vFloat (.finite 105)) ∧
      pyGet2 q "stock" "dayHigh" = some (.vFloat (.finite 110)) ∧
      pyGet2 q "stock" "dayLow" = some (.vFloat (.finite 90)) ∧
      pyGet2 q "stock" "open" = some (.vFloat (.finite 100)) ∧
      pyGet q "source" = some (.vStr "database") :=
  c4_amended "abc"
    ⟨none, false,
     some ⟨some (.finite 100), some (.finite 110), some (.finite 90),
           some (.finite 105), some 5000⟩,
     some ⟨"Acme", "NSE", some "IT"⟩, none, "T"⟩
    ⟨some (.finite 100), some (.finite 110), some (.finite 90),
     some (.finite 105), some 5000⟩
    ⟨"Acme", "NSE", some "IT"⟩
    (.finite 100) (.finite 110) (.finite 90) (.finite 105)
    rfl rfl rfl rfl rfl rfl rfl rfl

/-- C5 fails as stated: when the market is closed and the off-hours store
lookup finds no bar, the fetched quote is cached with `10 *
CACHE_TTL_REALTIME`, not the base real-time TTL — the code re-evaluates the
market-hours predicate when picking the TTL. -/
theorem c5_counterexample :
    (get_quote "ABC" ⟨none, false, none, none, some (.vStr "Q"), "T"⟩).writes =
      [⟨"quote:ABC", .vStr "Q", CACHE_TTL_REALTIME * 10⟩] ∧
    CACHE_TTL_REALTIME * 10 ≠ CACHE_TTL_REALTIME :=
  ⟨rfl, by decide⟩

/-- C5 amended: when `get_quote` reaches the provider-fetch step and the
provider returns a quote, the quote is cached with the base real-time TTL
if the market is open, and with ten times the base TTL if the market is
closed (having fallen through because the store lookup found nothing). -/
theorem c5_amended (symbol : String) (env : QuoteEnv) (q : PyVal)
    (hc : env.cached = none) (hp : env.providerResp = some q) :
    (env.marketOpen = true →
      get_quote symbol env =
        ⟨some q, [⟨"quote:" ++ pyUpper symbol, q, CACHE_TTL_REALTIME⟩], true⟩) ∧
    (env.marketOpen = false →
      get_latest_db_quote symbol env.latestRow env.stockInfo env.now = none →
      get_quote symbol env =
        ⟨some q, [⟨"quote:" ++ pyUpper symbol, q, CACHE_TTL_REALTIME * 10⟩], true⟩) := by
  obtain ⟨cached, mo, lr, sinfo, pr, now⟩ := env
  simp only at hc hp
  subst hc hp
  constructor
  · intro hmo
    subst hmo
    rfl
  · intro hmo hdb
    simp only at hmo hdb
    subst hmo
    have hred : get_quote symbol ⟨none, false, lr, sinfo, some q, now⟩ =
        match get_latest_db_quote symbol lr sinfo now with
        | some dbq =>
          ⟨some dbq, [⟨"quote:" ++ pyUpper symbol, dbq, CACHE_TTL_REALTIME * 10⟩], false⟩
        | none => quoteFetchStep ("quote:" ++ pyUpper symbol) ⟨none, false, lr, sinfo, some q, now⟩ := rfl
    rw [hred, hdb]
    rfl

theorem c5_witness :
    get_quote "ab" ⟨none, true, none, none, some (.vStr "Q"), "T"⟩ =
      ⟨some (.vStr "Q"), [⟨"quote:AB", .vStr "Q", CACHE_TTL_REALTIME⟩], true⟩ :=
  (c5_amended "ab" ⟨none, true, none, none, some (.vStr "Q"), "T"⟩ (.vStr "Q") rfl rfl).1 rfl

/-- C8 fails as stated: a provider exception inside the fetch-and-store
helper is caught there and swallowed, so `get_history` returns a normal
result assembled from the store — `error` is null and the payload carries
the stored rows — instead of a result with a non-null `error` and empty
data. -/
theorem c8_counterexample :
    (get_history "ABC" "6M"
      ⟨none, some "Y", some 0, .error (),
       .ok [(0, ⟨some (.finite 1), some (.finite 1), some (.finite 1),
                 some (.finite 1), some 1⟩)], 10, "T"⟩).error = none ∧
    (get_history "ABC" "6M"
      ⟨none, some "Y", some 0, .error (),
       .ok [(0, ⟨some (.finite 1), some (.finite 1), some (.finite 1),
                 some (.finite 1), some 1⟩)], 10, "T"⟩).records = 1 :=
  ⟨rfl, rfl⟩

/-- C8 amended: `get_quote` and `get_history` never propagate an exception
(the embeddings are total functions into plain result values).  On a cache
miss, the only `get_history` result with a non-null `error` is the
"Symbol not found in database" one, and it carries empty data with
`records = 0`; a provider exception inside `_fetch_and_store_history` is
swallowed there, so `get_history` then returns a normal result (null
`error`) built from whatever the store's range read yields. -/
theorem c8_amended :
    (∀ (symbol period : String) (env : HistEnv), env.cached = none →
      (get_history symbol period env).error ≠ none →
      (get_history symbol period env).data = [] ∧
      (get_history symbol period env).records = 0 ∧
      (get_history symbol period env).error = some "Symbol not found in database") ∧
    (∀ (symbol period : String) (env : HistEnv) (y : String)
        (rows : List (Int × BarRow)),
      env.cached = none → env.yahooSymbol = some y →
      env.providerBars = .error () → env.rangeRows = .ok rows →
      (get_history symbol period env).error = none ∧
      (get_history symbol period env).data = get_history_from_db rows ∧
      (get_history symbol period env).records = (get_history_from_db rows).length) := by
  constructor
  · intro symbol period env hc
    obtain ⟨cached, ys, ld, pb, rr, today, now⟩ := env
    simp only at hc
    subst hc
    cases ys with
    | none => intro _; exact ⟨rfl, rfl, rfl⟩
    | some y => intro hne; exact absurd rfl hne
  · intro symbol period env y rows hc hy hp hr
    obtain ⟨cached, ys, ld, pb, rr, today, now⟩ := env
    simp only at hc hy hp hr
    subst hc hy hp hr
    exact ⟨rfl, rfl, rfl⟩

theorem c8_witness :
    ((get_history "ABC" "6M" ⟨none, none, none, .error (), .ok [], 10, "T"⟩).data = [] ∧
     (get_history "ABC" "6M" ⟨none, none, none, .error (), .ok [], 10, "T"⟩).records = 0 ∧
     (get_history "ABC" "6M" ⟨none, none, none, .error (), .ok [], 10, "T"⟩).error =
       some "Symbol not found in database") ∧
    ((get_history "ABC" "6M"
        ⟨none, some "Y", some 0, .error (), .ok [], 10, "T"⟩).error = none ∧
     (get_history "ABC" "6M"
        ⟨none, some "Y", some 0, .error (), .ok [], 10, "T"⟩).data =
       get_history_from_db []) :=
  ⟨c8_amended.1 "ABC" "6M" ⟨none, none, none, .error (), .ok [], 10, "T"⟩ rfl
     (by decide),
   (c8_amended.2 "ABC" "6M" ⟨none, some "Y", some 0, .error (), .ok [], 10, "T"⟩
     "Y" [] rfl rfl rfl rfl).1,
   (c8_amended.2 "ABC" "6M" ⟨none, some "Y", some 0, .error (), .ok [], 10, "T"⟩
     "Y" [] rfl rfl rfl rfl).2.1⟩

theorem taskInv_ext {a b : WSState}
    (h1 : a.symbol_subscribers = b.symbol_subscribers)
    (h2 : a.update_tasks = b.update_tasks) (h : TaskInv b) : TaskInv a := by
  intro sym
  unfold subscribersOf
  rw [h1, h2]
  exact h sym

theorem taskInv_init : TaskInv initWS := by
  intro sym
  simp [initWS, subscribersOf]

theorem taskInv_wsConnect (c : String) (st : WSState) (h : TaskInv st) :
    TaskInv (wsConnect c st) :=
  taskInv_ext rfl rfl h

theorem taskInv_setSubscribers (st : WSState) (sym : String) (v : Finset String)
    (hv : v ≠ ∅) (h : TaskInv st) (sub : String → Option (Finset String)) :
    TaskInv ⟨sub, Function.update st.symbol_subscribers sym (some v),
             insert sym st.update_tasks⟩ := by
  intro s
  unfold subscribersOf
  show s ∈ insert sym st.update_tasks ↔
    ((Function.update st.symbol_subscribers sym (some v)) s).getD ∅ ≠ ∅
  rw [Function.update_apply]
  by_cases hs : s = sym
  · simp [hs, hv]
  · rw [if_neg hs]
    simp only [Finset.mem_insert, hs, false_or]
    exact h s

theorem taskInv_setSubscribersKeep (st : WSState) (sym : String) (v : Finset String)
    (hv : v ≠ ∅) (hmem : sym ∈ st.update_tasks) (h : TaskInv st)
    (sub : String → Option (Finset String)) :
    TaskInv ⟨sub, Function.update st.symbol_subscribers sym (some v),
             st.update_tasks⟩ := by
  intro s
  unfold subscribersOf
  show s ∈ st.update_tasks ↔
    ((Function.update st.symbol_subscribers sym (some v)) s).getD ∅ ≠ ∅
  rw [Function.update_apply]
  by_cases hs : s = sym
  · subst hs
    simp [hmem, hv]
  · rw [if_neg hs]
    exact h s

theorem taskInv_dropSubscribers (st : WSState) (sym : String) (h : TaskInv st)
    (sub : String → Option (Finset String)) :
    TaskInv ⟨sub, Function.update st.symbol_subscribers sym none,
             st.update_tasks.erase sym⟩ := by
  intro s
  unfold subscribersOf
  show s ∈ st.update_tasks.erase sym ↔
    ((Function.update st.symbol_subscribers sym none) s).getD ∅ ≠ ∅
  rw [Function.update_apply]
  by_cases hs : s = sym
  · simp [hs]
  · rw [if_neg hs]
    simp only [Finset.mem_erase, hs, ne_eq, not_false_eq_true, true_and]
    exact h s

theorem taskInv_subscribeOne (c : String) (st : WSState) (raw : String)
    (h : TaskInv st) : TaskInv (subscribeOne c st raw) := by
  unfold subscribeOne
  by_cases hemp : pyStrip (pyUpper raw) = ""
  · rw [if_pos hemp]
    exact h
  · rw [if_neg hemp]
    cases hcs : st.subscriptions c with
    | none => exact h
    | some cs =>
      dsimp only
      by_cases hcard :
          (insert c ((st.symbol_subscribers (pyStrip (pyUpper raw))).getD ∅)).card = 1
      · rw [if_pos hcard]
        exact taskInv_setSubscribers st (pyStrip (pyUpper raw)) _
          (Finset.insert_ne_empty c _) h _
      · rw [if_neg hcard]
        have hprev : subscribersOf st (pyStrip (pyUpper raw)) ≠ ∅ := by
          intro h0
          apply hcard
          unfold subscribersOf at h0
          rw [h0]
          exact Finset.card_singleton c
        exact taskInv_setSubscribersKeep st (pyStrip (pyUpper raw)) _
          (Finset.insert_ne_empty c _)
          ((h (pyStrip (pyUpper raw))).mpr hprev) h _

theorem taskInv_foldl {α : Type} (f : WSState → α → WSState)
    (hf : ∀ st a, TaskInv st → TaskInv (f st a)) :
    ∀ (l : List α) (st : WSState), TaskInv st → TaskInv (l.foldl f st) := by
  intro l
  induction l with
  | nil => intro st h; exact h
  | cons a tl ih => intro st h; exact ih (f st a) (hf st a h)

theorem taskInv_subscribe_symbols (c : String) (syms : List String) (st : WSState)
    (h : TaskInv st) : TaskInv (subscribe_symbols c syms st) := by
  unfold subscribe_symbols
  by_cases hc : (st.subscriptions c).isSome
  · rw [if_pos hc]
    exact taskInv_foldl (subscribeOne c) (fun s a hs => taskInv_subscribeOne c s a hs) syms st h
  · rw [if_neg hc]
    exact h

theorem unsubClientSide_ss (c sym : String) (st : WSState) :
    (unsubClientSide c sym st).symbol_subscribers = st.symbol_subscribers := by
  unfold unsubClientSide
  cases st.subscriptions c <;> rfl

theorem unsubClientSide_tasks (c sym : String) (st : WSState) :
    (unsubClientSide c sym st).update_tasks = st.update_tasks := by
  unfold unsubClientSide
  cases st.subscriptions c <;> rfl

theorem taskInv_unsubSubscriberSide (c sym : String) (st : WSState)
    (h : TaskInv st) : TaskInv (unsubSubscriberSide c sym st) := by
  unfold unsubSubscriberSide
  cases hss : st.symbol_subscribers sym with
  | none => exact h
  | some subs =>
    dsimp only
    by_cases he : subs.erase c = ∅
    · rw [if_pos he]
      exact taskInv_dropSubscribers st sym h _
    · rw [if_neg he]
      have hsubs : subscribersOf st sym ≠ ∅ := by
        unfold subscribersOf
        rw [hss]
        intro h0
        apply he
        simp only [Option.getD_some] at h0
        rw [h0]
        exact Finset.erase_empty c
      exact taskInv_setSubscribersKeep st sym _ he ((h sym).mpr hsubs) h _

theorem taskInv_unsubscribe (c raw : String) (st : WSState) (h : TaskInv st) :
    TaskInv (unsubscribe_symbol c raw st) :=
  taskInv_unsubSubscriberSide c (pyUpper raw) _
    (taskInv_ext (unsubClientSide_ss c (pyUpper raw) st)
      (unsubClientSide_tasks c (pyUpper raw) st) h)

theorem taskInv_ws_disconnect (c : String) (st : WSState) (h : TaskInv st) :
    TaskInv (ws_disconnect c st) := by
  unfold ws_disconnect
  cases st.subscriptions c with
  | none => exact h
  | some cs =>
    exact taskInv_ext rfl rfl
      (taskInv_foldl (fun acc sym => unsubscribe_symbol c sym acc)
        (fun s a hs => taskInv_unsubscribe c a s hs) _ st h)

theorem taskInv_applyWSOp (st : WSState) (op : WSOp) (h : TaskInv st) :
    TaskInv (applyWSOp st op) := by
  cases op with
  | connect c => exact taskInv_wsConnect c st h
  | subscribe c syms => exact taskInv_subscribe_symbols c syms st h
  | unsubscribe c sym => exact taskInv_unsubscribe c sym st h
  | disconnect c => exact taskInv_ws_disconnect c st h

/-- C1: reference-counted poll-task lifecycle.  After every finite sequence
of fan-out events on a fresh `WebSocketManager`, a symbol has a poll task
registered in `update_tasks` exactly when its subscriber set in
`symbol_subscribers` is non-empty; in particular, two clients subscribing
to `XYZ` register exactly one poll task, unsubscribing one of the two
leaves it registered, and unsubscribing the last cancels and removes it. -/
theorem c1_poll_task_lifecycle :
    (∀ ops : List WSOp, TaskInv (runWS ops)) ∧
    (runWS [.connect "X", .connect "Y", .subscribe "X" ["XYZ"],
            .subscribe "Y" ["XYZ"]]).update_tasks = {"XYZ"} ∧
    ("XYZ" ∈ (runWS [.connect "X", .connect "Y", .subscribe "X" ["XYZ"],
            .subscribe "Y" ["XYZ"], .unsubscribe "X" "XYZ"]).update_tasks) ∧
    (runWS [.connect "X", .connect "Y", .subscribe "X" ["XYZ"],
            .subscribe "Y" ["XYZ"], .unsubscribe "X" "XYZ",
            .unsubscribe "Y" "XYZ"]).update_tasks = ∅ := by
  refine ⟨fun ops => taskInv_foldl applyWSOp taskInv_applyWSOp ops initWS taskInv_init,
    ?_, ?_, ?_⟩ <;> decide
